import Mathlib

/-
Verification of src/src/adapters/simpleuploadadapter.js, a CKEditor 5
upload adapter forked to post files to a Cloudinary endpoint.

The JavaScript is embedded shallowly:
- the editor environment (config store, file repository, console) becomes
  an explicit record EditorState threaded through SimpleUploadAdapter.init;
- an Adapter instance becomes a record; JavaScript object identity, which
  the source obtains from the new operator, is modelled by a fresh numeric
  id handed out by the registered factory;
- the asynchronous upload method becomes a function from the adapter and
  an environment record UploadEnv, which fixes the file the loader
  resolves with, the transport outcome, and how many times abort is called
  while the request is in flight, to a trace: the adapter post-state, the
  list of outbound requests, the number of cancellation signals the
  transport received, and the settled outcome of the returned promise.
-/

/-- Minimal JSON values, enough for the parsed response body of the
upload endpoint. -/
inductive Json where
  | null : Json
  | bool : Bool → Json
  | num : Int → Json
  | str : String → Json
  | arr : List Json → Json
  | obj : List (String × Json) → Json

/-- Field lookup in an association list of JSON object members. -/
def lookupField : List (String × Json) → String → Option Json
  | [], _ => none
  | (k, v) :: rest, key => if k = key then some v else lookupField rest key

/-- Value of a field of a JSON value, as JavaScript destructuring sees it:
a missing field, or any non-object value, yields undefined (none). The
null case is excluded by the caller because destructuring null throws. -/
def getField : Json → String → Option Json
  | Json.obj fields, key => lookupField fields key
  | _, _ => none

/-- The simpleUpload configuration object. Fields the configuration may
omit are Options; none models the JavaScript value undefined. The source
reads uploadUrl in init (line 66) and CLOUDINARY_UPLOAD_PRESET together
with CLOUDINARY_UPLOAD_URL in upload (lines 127 and 130); headers is
documented but never read. -/
structure SimpleUploadOptions where
  uploadUrl : Option String
  headers : Option (List (String × String))
  CLOUDINARY_UPLOAD_URL : Option String
  CLOUDINARY_UPLOAD_PRESET : Option String

/-- A value appended to the FormData body: either a JavaScript string
field (possibly the undefined value, as happens when the configured
preset is absent) or the file payload from the loader. -/
inductive FormValue where
  | str : Option String → FormValue
  | file : String → FormValue

/-- One name-value entry of the multipart FormData body. -/
structure FormEntry where
  name : String
  value : FormValue

/-- An outbound HTTP request as handed to fetch in upload (lines
130-134). The options object passed to fetch holds exactly the keys
method, body and signal, so headers is none whenever the source builds
the request. -/
structure Request where
  url : Option String
  method : String
  body : List FormEntry
  headers : Option (List (String × String))
  signalAttached : Bool

/-- Errors a settled upload promise can carry. abortError is the
rejection fetch produces when its signal fires; networkError is a failed
fetch; syntaxError is res.json() on a body that is not JSON; typeError is
destructuring a null body, and also what abort raises on an adapter whose
abortController was never assigned. -/
inductive JsError where
  | abortError : JsError
  | networkError : JsError
  | syntaxError : JsError
  | typeError : JsError

/-- The settled state of the promise returned by upload: resolved carries
the value stored under the key default of the returned mapping (the
secure_url field of the parsed body, possibly undefined), rejected
carries the error. -/
inductive UploadOutcome where
  | resolved : Option Json → UploadOutcome
  | rejected : JsError → UploadOutcome

/-- Outcome the transport produces for the single request when it is not
aborted: a network failure, or an HTTP response with a status code and a
body (none when the body is not parseable as JSON). -/
inductive FetchResult where
  | networkError : FetchResult
  | response : Nat → Option Json → FetchResult

/-- Environment of one upload call: the file payload the loader resolves
with, the number of times abort is called on the adapter while the
request is in flight, and the transport outcome reached when no abort
intervenes. -/
structure UploadEnv where
  file : String
  abortCallsWhilePending : Nat
  fetchResult : FetchResult

/-- An AbortController, reduced to the aborted flag of its signal. Its
abort method sets the flag; the attached signal fires its abort event at
most once, on the first call. -/
structure AbortController where
  aborted : Bool

/-- An Adapter instance (source lines 93-150). The constructor (lines
100-114) assigns only loader and options; abortController stays
undefined (none) until upload runs. The id field models JavaScript
object identity: each evaluation of the new operator yields a fresh
object. -/
structure Adapter where
  id : Nat
  loader : Nat
  options : SimpleUploadOptions
  abortController : Option AbortController

/-- The Adapter constructor (lines 100-114): stores the loader handle and
the options; no abortController is created here. -/
def Adapter.new (id loader : Nat) (options : SimpleUploadOptions) : Adapter :=
  { id := id, loader := loader, options := options, abortController := none }

/-- The request upload builds (lines 126-134): a POST to
options.CLOUDINARY_UPLOAD_URL whose FormData body holds upload_preset
(the configured preset, possibly undefined) and file (the payload from
the loader), with the abort signal attached and no headers option. -/
def uploadRequest (options : SimpleUploadOptions) (file : String) : Request :=
  { url := options.CLOUDINARY_UPLOAD_URL
    method := "POST"
    body := [ { name := "upload_preset", value := FormValue.str options.CLOUDINARY_UPLOAD_PRESET }
            , { name := "file", value := FormValue.file file } ]
    headers := none
    signalAttached := true }

/-- How upload settles from the transport outcome when no abort
intervenes (lines 130-139). The source never reads the response status:
fetch resolves for every HTTP response, res.json() rejects only when the
body is not parseable, destructuring a null body throws, and otherwise
the promise resolves with the mapping from default to the secure_url
field of the body. -/
def responseOutcome : FetchResult → UploadOutcome
  | FetchResult.networkError => UploadOutcome.rejected JsError.networkError
  | FetchResult.response _ none => UploadOutcome.rejected JsError.syntaxError
  | FetchResult.response _ (some Json.null) => UploadOutcome.rejected JsError.typeError
  | FetchResult.response _ (some body) => UploadOutcome.resolved (getField body "secure_url")

/-- Trace of one upload call: the adapter post-state, the outbound
requests issued, the number of cancellation signals delivered to the
transport, and the settled outcome. -/
structure UploadTrace where
  adapter : Adapter
  requests : List Request
  signalsDelivered : Nat
  outcome : UploadOutcome

/-- The upload method (lines 122-140): assigns a fresh AbortController,
builds the FormData body from the configured preset and the awaited file,
and issues a single POST with the signal attached. If abort is called at
least once while the request is in flight, the controller becomes
aborted, the signal fires exactly once (further abort calls on an
already-aborted controller do nothing), and fetch rejects with an
abort error; otherwise the call settles from the transport outcome. -/
def Adapter.upload (a : Adapter) (env : UploadEnv) : UploadTrace :=
  let req := uploadRequest a.options env.file
  if env.abortCallsWhilePending = 0 then
    { adapter := { a with abortController := some { aborted := false } }
      requests := [req]
      signalsDelivered := 0
      outcome := responseOutcome env.fetchResult }
  else
    { adapter := { a with abortController := some { aborted := true } }
      requests := [req]
      signalsDelivered := 1
      outcome := UploadOutcome.rejected JsError.abortError }

/-- The abort method (lines 148-150): it dereferences this.abortController
unconditionally, so on an adapter whose upload never ran the call throws
a TypeError; otherwise it sets the aborted flag of the stored controller
and returns the updated adapter. -/
def Adapter.abort (a : Adapter) : Except JsError Adapter :=
  match a.abortController with
  | none => Except.error JsError.typeError
  | some _ => Except.ok { a with abortController := some { aborted := true } }

/-- JavaScript truthiness of the uploadUrl field as tested on line 66:
undefined and the empty string are falsy. -/
def strFalsy : Option String → Bool
  | none => true
  | some s => s = ""

/-- The warning message logged on lines 74-76 when uploadUrl is missing.
The source passes it through attachLinkToDocumentation, an external
utility that appends a documentation link; the model keeps the message
itself. -/
def missingUploadUrlWarning : String :=
  "simple-upload-adapter-missing-uploadUrl: Missing the \"uploadUrl\" property in the \"simpleUpload\" editor configuration."

/-- The observable editor state init interacts with: the simpleUpload
configuration value, the createUploadAdapter slot of the FileRepository
plugin (recorded as the options the registered factory closes over; none
means no factory registered), and the console warnings emitted so far. -/
structure EditorState where
  simpleUploadConfig : Option SimpleUploadOptions
  createUploadAdapterRegistered : Option SimpleUploadOptions
  warnings : List String

/-- The init method (lines 59-84): reads the simpleUpload configuration;
if absent it returns at once; if uploadUrl is falsy it logs one warning
and returns without registering; otherwise it assigns the
createUploadAdapter factory closing over the options. It is a total
function: no branch throws. -/
def SimpleUploadAdapter.init (st : EditorState) : EditorState :=
  match st.simpleUploadConfig with
  | none => st
  | some options =>
    if strFalsy options.uploadUrl then
      { st with warnings := st.warnings ++ [missingUploadUrlWarning] }
    else
      { st with createUploadAdapterRegistered := some options }

/-- The registered factory (lines 81-83): given a loader handle it
evaluates new Adapter(loader, options). The fresh counter models the
allocation performed by new: the returned adapter carries the fresh id
and the counter advances. -/
def createUploadAdapter (options : SimpleUploadOptions) (fresh loader : Nat) :
    Adapter × Nat :=
  (Adapter.new fresh loader options, fresh + 1)

/-- A fully populated configuration, used by concrete witnesses. -/
def optsCloudinary : SimpleUploadOptions :=
  { uploadUrl := some "https://example.com/upload"
    headers := some [("X-CSRF-TOKEN", "token")]
    CLOUDINARY_UPLOAD_URL := some "https://api.cloudinary.com/v1_1/demo/upload"
    CLOUDINARY_UPLOAD_PRESET := some "unsigned1" }

/-- A response body carrying a secure_url field. -/
def bodyOk : Json :=
  Json.obj [("secure_url", Json.str "https://cdn.example.com/x.png")]

/-- Environment of an undisturbed upload answered with HTTP 200 and a
body carrying secure_url. -/
def envOk : UploadEnv :=
  { file := "payload"
    abortCallsWhilePending := 0
    fetchResult := FetchResult.response 200 (some bodyOk) }

/-- Environment of an undisturbed upload answered with HTTP 500 and a
parseable JSON error body. -/
def env500 : UploadEnv :=
  { file := "payload"
    abortCallsWhilePending := 0
    fetchResult := FetchResult.response 500 (some (Json.obj [("error", Json.str "boom")])) }

/-- Environment of an undisturbed upload answered with HTTP 200 and a
body that is not parseable as JSON. -/
def envMalformed : UploadEnv :=
  { file := "payload"
    abortCallsWhilePending := 0
    fetchResult := FetchResult.response 200 none }

/-- Environment of an upload aborted twice while pending. -/
def envAborted : UploadEnv :=
  { file := "payload"
    abortCallsWhilePending := 2
    fetchResult := FetchResult.response 200 (some bodyOk) }

/-- C1: for every successful HTTP response whose JSON body carries a
secure_url field with string value u, upload resolves with the mapping
from default to u. -/
theorem upload_success_resolves_secure_url
    (a : Adapter) (env : UploadEnv) (status : Nat) (body : Json) (u : String)
    (hquiet : env.abortCallsWhilePending = 0)
    (hresp : env.fetchResult = FetchResult.response status (some body))
    (hok : 200 ≤ status ∧ status < 300)
    (hfield : getField body "secure_url" = some (Json.str u)) :
    (a.upload env).outcome = UploadOutcome.resolved (some (Json.str u)) := by
  cases body with
  | obj fields =>
      simp [Adapter.upload, hquiet, hresp, responseOutcome, getField] at hfield ⊢
      exact hfield
  | null => simp [getField] at hfield
  | bool b => simp [getField] at hfield
  | num n => simp [getField] at hfield
  | str s => simp [getField] at hfield
  | arr xs => simp [getField] at hfield

/-- Witness for upload_success_resolves_secure_url at the concrete
environment envOk. -/
theorem upload_success_resolves_secure_url_witness :
    ((Adapter.new 0 0 optsCloudinary).upload envOk).outcome
      = UploadOutcome.resolved (some (Json.str "https://cdn.example.com/x.png")) :=
  upload_success_resolves_secure_url (Adapter.new 0 0 optsCloudinary) envOk 200 bodyOk
    "https://cdn.example.com/x.png" rfl rfl (by decide) rfl

/-- C2 counterexample: on an HTTP 500 response whose body is parseable
JSON, upload does not reject; it resolves, yielding a result mapping
whose default entry is the undefined value, because the response status
is never inspected. -/
theorem upload_http500_resolves :
    ((Adapter.new 0 0 optsCloudinary).upload env500).outcome
      = UploadOutcome.resolved none := rfl

/-- C2 amended: upload rejects and yields no result mapping when the
transport fails or when the response body is not parseable as JSON; a
non-success HTTP status alone does not cause rejection, since the status
is never inspected. -/
theorem upload_rejects_network_or_malformed
    (a : Adapter) (env : UploadEnv) (status : Nat)
    (hquiet : env.abortCallsWhilePending = 0)
    (hbad : env.fetchResult = FetchResult.networkError ∨
            env.fetchResult = FetchResult.response status none) :
    (a.upload env).outcome = UploadOutcome.rejected JsError.networkError ∨
    (a.upload env).outcome = UploadOutcome.rejected JsError.syntaxError := by
  rcases hbad with h | h <;> simp [Adapter.upload, hquiet, h, responseOutcome]

/-- Witness for upload_rejects_network_or_malformed at the concrete
environment envMalformed. -/
theorem upload_rejects_network_or_malformed_witness :
    ((Adapter.new 0 0 optsCloudinary).upload envMalformed).outcome
        = UploadOutcome.rejected JsError.networkError ∨
    ((Adapter.new 0 0 optsCloudinary).upload envMalformed).outcome
        = UploadOutcome.rejected JsError.syntaxError :=
  upload_rejects_network_or_malformed (Adapter.new 0 0 optsCloudinary) envMalformed 200
    rfl (Or.inr rfl)

/-- C3 counterexample: calling abort on a freshly constructed adapter,
before any upload, throws: the constructor never assigns
abortController, so the method dereferences the undefined value. -/
theorem abort_before_upload_throws :
    (Adapter.new 0 0 optsCloudinary).abort = Except.error JsError.typeError := rfl

/-- C3 amended: once an upload call has run, abort raises no error and
changes only the aborted flag of the controller that upload stored; the
settled upload is unaffected. Before any upload, abort throws a
TypeError, because abortController is still undefined. -/
theorem abort_safe_only_after_upload
    (i l : Nat) (opts : SimpleUploadOptions) (a : Adapter) (env : UploadEnv) :
    (Adapter.new i l opts).abort = Except.error JsError.typeError ∧
    ((a.upload env).adapter).abort
      = Except.ok { (a.upload env).adapter with abortController := some { aborted := true } } := by
  constructor
  · rfl
  · by_cases h : env.abortCallsWhilePending = 0 <;>
      simp [Adapter.upload, Adapter.abort, h]

/-- A configuration lacking the uploadUrl field. -/
def optsNoUrl : SimpleUploadOptions :=
  { uploadUrl := none
    headers := none
    CLOUDINARY_UPLOAD_URL := some "https://api.cloudinary.com/v1_1/demo/upload"
    CLOUDINARY_UPLOAD_PRESET := some "unsigned1" }

/-- An editor state whose simpleUpload configuration lacks uploadUrl. -/
def stMissingUrl : EditorState :=
  { simpleUploadConfig := some optsNoUrl
    createUploadAdapterRegistered := none
    warnings := [] }

/-- An editor state with no simpleUpload configuration at all. -/
def stNoConfig : EditorState :=
  { simpleUploadConfig := none
    createUploadAdapterRegistered := none
    warnings := [] }

/-- An editor state holding the fully populated configuration. -/
def stValid : EditorState :=
  { simpleUploadConfig := some optsCloudinary
    createUploadAdapterRegistered := none
    warnings := [] }

/-- C4: when the configuration is present but lacks uploadUrl, init
registers no adapter factory and appends exactly one warning naming the
missing field; init is a total function, so nothing is thrown. -/
theorem init_missing_uploadUrl_warns
    (st : EditorState) (options : SimpleUploadOptions)
    (hcfg : st.simpleUploadConfig = some options)
    (hmissing : options.uploadUrl = none) :
    (SimpleUploadAdapter.init st).createUploadAdapterRegistered
        = st.createUploadAdapterRegistered ∧
    (SimpleUploadAdapter.init st).warnings
        = st.warnings ++ [missingUploadUrlWarning] := by
  obtain ⟨cfg, reg, warns⟩ := st
  dsimp only at hcfg
  subst hcfg
  simp [SimpleUploadAdapter.init, strFalsy, hmissing]

/-- Witness for init_missing_uploadUrl_warns at the concrete state
stMissingUrl. -/
theorem init_missing_uploadUrl_warns_witness :
    (SimpleUploadAdapter.init stMissingUrl).createUploadAdapterRegistered
        = stMissingUrl.createUploadAdapterRegistered ∧
    (SimpleUploadAdapter.init stMissingUrl).warnings
        = stMissingUrl.warnings ++ [missingUploadUrlWarning] :=
  init_missing_uploadUrl_warns stMissingUrl optsNoUrl rfl rfl

/-- C5: when the simpleUpload configuration value is absent, init returns
the editor state unchanged: no factory registered, no warning logged, no
error raised. -/
theorem init_absent_config_no_effect
    (st : EditorState) (hcfg : st.simpleUploadConfig = none) :
    SimpleUploadAdapter.init st = st := by
  obtain ⟨cfg, reg, warns⟩ := st
  dsimp only at hcfg
  subst hcfg
  rfl

/-- Witness for init_absent_config_no_effect at the concrete state
stNoConfig. -/
theorem init_absent_config_no_effect_witness :
    SimpleUploadAdapter.init stNoConfig = stNoConfig :=
  init_absent_config_no_effect stNoConfig rfl

/-- C6: with a valid configuration, init registers the factory closing
over the resolved options, and every factory call returns a fresh
Adapter bound to the given loader and those options, whose upload state
starts empty; two successive calls yield adapters with distinct
identities. -/
theorem init_valid_registers_fresh_factory
    (st : EditorState) (options : SimpleUploadOptions) (u : String)
    (hcfg : st.simpleUploadConfig = some options)
    (hurl : options.uploadUrl = some u) (hne : u ≠ "")
    (fresh l1 l2 : Nat) :
    (SimpleUploadAdapter.init st).createUploadAdapterRegistered = some options ∧
    (createUploadAdapter options fresh l1).1
        = { id := fresh, loader := l1, options := options, abortController := none } ∧
    (createUploadAdapter options (createUploadAdapter options fresh l1).2 l2).1
        = { id := fresh + 1, loader := l2, options := options, abortController := none } ∧
    (createUploadAdapter options fresh l1).1.id
        ≠ (createUploadAdapter options (createUploadAdapter options fresh l1).2 l2).1.id := by
  refine ⟨?_, rfl, rfl, by simp [createUploadAdapter, Adapter.new]⟩
  obtain ⟨cfg, reg, warns⟩ := st
  dsimp only at hcfg
  subst hcfg
  simp [SimpleUploadAdapter.init, strFalsy, hurl, hne]

/-- Witness for init_valid_registers_fresh_factory at the concrete state
stValid with two factory calls. -/
theorem init_valid_registers_fresh_factory_witness :
    (SimpleUploadAdapter.init stValid).createUploadAdapterRegistered
        = some optsCloudinary ∧
    (createUploadAdapter optsCloudinary 0 7).1
        = { id := 0, loader := 7, options := optsCloudinary, abortController := none } ∧
    (createUploadAdapter optsCloudinary (createUploadAdapter optsCloudinary 0 7).2 8).1
        = { id := 1, loader := 8, options := optsCloudinary, abortController := none } ∧
    (createUploadAdapter optsCloudinary 0 7).1.id
        ≠ (createUploadAdapter optsCloudinary (createUploadAdapter optsCloudinary 0 7).2 8).1.id :=
  init_valid_registers_fresh_factory stValid optsCloudinary "https://example.com/upload"
    rfl rfl (by decide) 0 7 8

/-- C7: abort called while an upload is pending makes the pending call
settle as aborted, and the transport receives the cancellation signal
exactly once, however many times abort is called. -/
theorem abort_while_pending_cancels_once
    (a : Adapter) (env : UploadEnv) (h : 1 ≤ env.abortCallsWhilePending) :
    (a.upload env).outcome = UploadOutcome.rejected JsError.abortError ∧
    (a.upload env).signalsDelivered = 1 := by
  have h0 : ¬ env.abortCallsWhilePending = 0 := by omega
  simp [Adapter.upload, h0]

/-- Witness for abort_while_pending_cancels_once at the concrete
environment envAborted. -/
theorem abort_while_pending_cancels_once_witness :
    ((Adapter.new 0 0 optsCloudinary).upload envAborted).outcome
        = UploadOutcome.rejected JsError.abortError ∧
    ((Adapter.new 0 0 optsCloudinary).upload envAborted).signalsDelivered = 1 :=
  abort_while_pending_cancels_once (Adapter.new 0 0 optsCloudinary) envAborted (by decide)

/-- C8: every upload call issues exactly one outbound request, with no
retries: a POST whose multipart body holds the configured upload preset
and the file payload obtained from the bound loader, with the
cancellation signal attached. -/
theorem upload_single_post_request (a : Adapter) (env : UploadEnv) :
    (a.upload env).requests = [uploadRequest a.options env.file] ∧
    (uploadRequest a.options env.file).method = "POST" ∧
    (uploadRequest a.options env.file).body
        = [ { name := "upload_preset"
              value := FormValue.str a.options.CLOUDINARY_UPLOAD_PRESET }
          , { name := "file", value := FormValue.file env.file } ] ∧
    (uploadRequest a.options env.file).signalAttached = true := by
  refine ⟨?_, rfl, rfl, rfl⟩
  by_cases h : env.abortCallsWhilePending = 0 <;> simp [Adapter.upload, h]

/-- A configuration with uploadUrl set but no Cloudinary fields. -/
def optsNoCloudinary : SimpleUploadOptions :=
  { uploadUrl := some "https://example.com/upload"
    headers := none
    CLOUDINARY_UPLOAD_URL := none
    CLOUDINARY_UPLOAD_PRESET := none }

/-- An editor state holding the configuration without Cloudinary fields. -/
def stNoCloudinary : EditorState :=
  { simpleUploadConfig := some optsNoCloudinary
    createUploadAdapterRegistered := none
    warnings := [] }

/-- Environment used to run the adapter built from optsNoCloudinary. -/
def envNoCloudinary : UploadEnv :=
  { file := "payload"
    abortCallsWhilePending := 0
    fetchResult := FetchResult.networkError }

/-- C9: the field init validates is not the field upload posts to. For
every configuration and file the issued request goes to
CLOUDINARY_UPLOAD_URL, never to uploadUrl; in particular the concrete
configuration with uploadUrl present and CLOUDINARY_UPLOAD_URL absent is
accepted by init, yet the adapter the factory builds for it sends its
single POST to an undefined endpoint. -/
theorem init_validates_wrong_endpoint_field :
    (∀ (options : SimpleUploadOptions) (file : String),
        (uploadRequest options file).url = options.CLOUDINARY_UPLOAD_URL) ∧
    (SimpleUploadAdapter.init stNoCloudinary).createUploadAdapterRegistered
        = some optsNoCloudinary ∧
    ((createUploadAdapter optsNoCloudinary 0 0).1.upload envNoCloudinary).requests
        = [uploadRequest optsNoCloudinary "payload"] ∧
    (uploadRequest optsNoCloudinary "payload").url = none := by
  refine ⟨fun _ _ => rfl, ?_, ?_, rfl⟩
  · simp [SimpleUploadAdapter.init, stNoCloudinary, strFalsy, optsNoCloudinary]
  · simp [Adapter.upload, envNoCloudinary, createUploadAdapter, Adapter.new]

/-- C10: the configured headers mapping is never attached to the
outbound request: whatever the configuration, the single request upload
issues carries no headers option, only the multipart body with the
upload preset and file fields, and the cancellation signal. -/
theorem upload_never_sends_headers (a : Adapter) (env : UploadEnv) :
    (a.upload env).requests = [uploadRequest a.options env.file] ∧
    (uploadRequest a.options env.file).headers = none ∧
    (uploadRequest a.options env.file).body
        = [ { name := "upload_preset"
              value := FormValue.str a.options.CLOUDINARY_UPLOAD_PRESET }
          , { name := "file", value := FormValue.file env.file } ] ∧
    (uploadRequest a.options env.file).signalAttached = true := by
  refine ⟨?_, rfl, rfl, rfl⟩
  by_cases h : env.abortCallsWhilePending = 0 <;> simp [Adapter.upload, h]
